import Mathlib

/-!
Shallow embedding of `p.py` from the WashingtonMinimumWages repository.

The script has two stages:
* `get_wa_counties` — fetch a national county GeoJSON document, filter to
  features whose `STATE` property is `"53"`, and enrich each feature with
  `NAME` / `NAMELSAD` properties from a static FIPS-to-name table;
* `create_wa_minimum_wage_map` — join a static wage table onto the loaded
  records (default 23.70, overrides for King and Whatcom), build a folium
  map (style function, tooltip, legend, title) and save it to a fixed HTML
  file.

Geometry is opaque to every operation of the script, so a feature's
geometry is modelled as an opaque `Nat` token.  Wage rates are exact
decimals in the source (compared by `==`), modelled as `ℚ`.
-/

set_option maxRecDepth 4000

namespace WAWages

/-- A feature of the fetched national GeoJSON document, as consulted by the
script: the `STATE` and `COUNTY` properties plus opaque geometry. -/
structure RawFeature where
  STATE : String
  COUNTY : String
  geometry : Nat
  deriving DecidableEq, Repr

/-- A feature after name enrichment (lines 49–54 of `p.py`): the original
properties plus the `NAME` and `NAMELSAD` properties written by the loop. -/
structure EnrichedFeature where
  STATE : String
  COUNTY : String
  geometry : Nat
  NAME : String
  NAMELSAD : String
  deriving DecidableEq, Repr

/-- A record after the wage join (lines 73–79 of `p.py`): the enriched
properties plus the `min_wage_numeric` and `min_wage_cad` columns. -/
structure WageFeature where
  STATE : String
  COUNTY : String
  geometry : Nat
  NAME : String
  NAMELSAD : String
  min_wage_numeric : ℚ
  min_wage_cad : String
  deriving DecidableEq, Repr

/-- The static FIPS-to-name table `county_names` (lines 32–46 of `p.py`). -/
def county_names : List (String × String) :=
  [("53001", "Adams"), ("53003", "Asotin"), ("53005", "Benton"),
   ("53007", "Chelan"), ("53009", "Clallam"), ("53011", "Clark"),
   ("53013", "Columbia"), ("53015", "Cowlitz"), ("53017", "Douglas"),
   ("53019", "Ferry"), ("53021", "Franklin"), ("53023", "Garfield"),
   ("53025", "Grant"), ("53027", "Grays Harbor"), ("53029", "Island"),
   ("53031", "Jefferson"), ("53033", "King"), ("53035", "Kitsap"),
   ("53037", "Kittitas"), ("53039", "Klickitat"), ("53041", "Lewis"),
   ("53043", "Lincoln"), ("53045", "Mason"), ("53047", "Okanogan"),
   ("53049", "Pacific"), ("53051", "Pend Oreille"), ("53053", "Pierce"),
   ("53055", "San Juan"), ("53057", "Skagit"), ("53059", "Skamania"),
   ("53061", "Snohomish"), ("53063", "Spokane"), ("53065", "Stevens"),
   ("53067", "Thurston"), ("53069", "Wahkiakum"), ("53071", "Walla Walla"),
   ("53073", "Whatcom"), ("53075", "Whitman"), ("53077", "Yakima")]

/-- `county_names.get(full_fips, "Unknown")` — Python `dict.get` with a
default value. -/
def lookup_name (full_fips : String) : String :=
  (county_names.lookup full_fips).getD "Unknown"

/-- The state-code filter (lines 23–29 of `p.py`): keep the features `f` of
the national document with `f["properties"]["STATE"] == "53"`. -/
def filter_wa (features : List RawFeature) : List RawFeature :=
  features.filter (fun f => f.STATE == "53")

/-- Name enrichment for one feature (lines 49–54 of `p.py`):
`full_fips = STATE + COUNTY`, then `NAME = county_names.get(full_fips,
"Unknown")` and `NAMELSAD = county_names.get(full_fips, "Unknown") + " County"`. -/
def enrich (f : RawFeature) : EnrichedFeature :=
  let full_fips := f.STATE ++ f.COUNTY
  { STATE := f.STATE, COUNTY := f.COUNTY, geometry := f.geometry,
    NAME := lookup_name full_fips,
    NAMELSAD := lookup_name full_fips ++ " County" }

/-- The success path of `get_wa_counties` applied to a parsed national
document: filter to `STATE == "53"` and enrich each kept feature in order. -/
def process_features (features : List RawFeature) : List EnrichedFeature :=
  (filter_wa features).map enrich

/-- Python `str()` of the wage floats occurring in the script
(`astype(str)` on the `min_wage_numeric` column, line 78 of `p.py`):
`str(23.70)` is `"23.7"`, `str(30.09)` is `"30.09"`, `str(26.54)` is
`"26.54"`.  Only these three values ever reach the column. -/
def py_float_str (q : ℚ) : String :=
  if q = 23.70 then "23.7"
  else if q = 30.09 then "30.09"
  else if q = 26.54 then "26.54"
  else "unreached"

/-- The wage join for one record (lines 73–79 of `p.py`), mirroring the
pandas column assignments in order: default 23.70 for all rows, then the
King override 30.09, then the Whatcom override 26.54 (each keyed on
`NAME == key` exact string equality); then
`min_wage_cad = str(min_wage_numeric) + " Canadian Dollars an hour"`, with
`" starting May 1st"` appended to the Whatcom rows. -/
def join_wage (f : EnrichedFeature) : WageFeature :=
  let r0 : ℚ := 23.70
  let r1 : ℚ := if f.NAME == "King" then 30.09 else r0
  let r2 : ℚ := if f.NAME == "Whatcom" then 26.54 else r1
  let text0 := py_float_str r2 ++ " Canadian Dollars an hour"
  let text1 := if f.NAME == "Whatcom" then text0 ++ " starting May 1st" else text0
  { STATE := f.STATE, COUNTY := f.COUNTY, geometry := f.geometry,
    NAME := f.NAME, NAMELSAD := f.NAMELSAD,
    min_wage_numeric := r2, min_wage_cad := text1 }

/-- The wage join over the whole dataset (a per-row column computation). -/
def join_wages (records : List EnrichedFeature) : List WageFeature :=
  records.map join_wage

/-- The fill descriptor returned by `style_function` (lines 85–93 of
`p.py`). -/
structure Style where
  fillColor : String
  color : String
  weight : Nat
  fillOpacity : ℚ
  deriving DecidableEq, Repr

/-- `style_function` (lines 85–93 of `p.py`): reads the feature's
`min_wage_numeric` property and compares it by `==` against 30.09 and
26.54, falling through to the default descriptor otherwise. -/
def style_function (feature : WageFeature) : Style :=
  let wage := feature.min_wage_numeric
  if wage == 30.09 then
    { fillColor := "#ffd700", color := "#000000", weight := 1, fillOpacity := 0.7 }
  else if wage == 26.54 then
    { fillColor := "#f5c855", color := "#000000", weight := 1, fillOpacity := 0.7 }
  else
    { fillColor := "#ffeeba", color := "#000000", weight := 1, fillOpacity := 0.7 }

/-- What the single `requests.get` call and the subsequent
`response.json()` parse can do, as consulted by `get_wa_counties`:
either the transport raises an exception, or it yields a response with a
status code whose body, when parsed, is either a national document or a
parse exception. -/
inductive FetchBehavior where
  | exn (msg : String)
  | response (status : Nat) (parse : Except String (List RawFeature))
  deriving Repr

/-- The spec's error taxonomy for the loader (lines 59–65 of `p.py`):
`FetchError` is the `Exception("Failed to fetch county data from API")`
raised on a non-200 status (the status code is reported on the console);
`LoadError` is any other exception caught by the `except` clause, carrying
the underlying cause. -/
inductive LoaderError where
  | FetchError (status : Nat)
  | LoadError (cause : String)
  deriving DecidableEq, Repr

/-- `get_wa_counties` (lines 8–65 of `p.py`) as a function of the fetch
behavior, returning the console lines printed and either the enriched
dataset or the error that propagates out.  On `status_code == 200` the
body is parsed, filtered and enriched; on any other status the script
prints the status line, raises, and the `except` clause logs the message
and re-raises; any other exception is logged by the `except` clause and
re-raised. -/
def get_wa_counties (b : FetchBehavior) :
    List String × Except LoaderError (List EnrichedFeature) :=
  match b with
  | .exn msg =>
      (["Error getting county data: " ++ msg], .error (.LoadError msg))
  | .response status parse =>
      if status == 200 then
        match parse with
        | .error msg =>
            (["Error getting county data: " ++ msg], .error (.LoadError msg))
        | .ok features => ([], .ok (process_features features))
      else
        (["API request failed with status code: " ++ toString status,
          "Error getting county data: Failed to fetch county data from API"],
         .error (.FetchError status))

/-- The tooltip configuration (lines 96–100 of `p.py`). -/
structure Tooltip where
  fields : List String
  aliases : List String
  deriving DecidableEq, Repr

/-- The composed folium map as the script configures it (lines 82–128 of
`p.py`): base-map parameters, the single GeoJson layer (records in order,
each with the style computed by `style_function`), the tooltip, and the
legend and title HTML blocks.  Everything is a function of the joined
dataset and compiled constants. -/
structure MapDoc where
  location : ℚ × ℚ
  zoom_start : Nat
  tiles : String
  layer_name : String
  styled_features : List (WageFeature × Style)
  tooltip : Tooltip
  legend_html : String
  title_html : String
  deriving DecidableEq, Repr

/-- The map composition (lines 82–128 of `p.py`) from the joined dataset. -/
def build_map (joined : List WageFeature) : MapDoc :=
  { location := (47.5, -120.5)
    zoom_start := 7
    tiles := "CartoDB positron"
    layer_name := "Washington Counties"
    styled_features := joined.map (fun w => (w, style_function w))
    tooltip := { fields := ["NAME", "min_wage_cad"],
                 aliases := ["County: ", "Minimum Wage: "] }
    legend_html := "Minimum Wage (CAD/hour): #ffd700 King County: 30.09; #f5c855 Whatcom County: 26.54 (starting May 1st); #ffeeba All other counties: 23.70"
    title_html := "Minimum Wage by County in Washington State (CAD) - All Counties in Gold Shades - Richer Counties in Darker Gold" }

/-- The fixed output filename (line 131 of `p.py`). -/
def output_file : String := "washington_minimum_wage_cad_map.html"

/-- The observable outcome of one run of `create_wa_minimum_wage_map`:
console lines, the files written (name and content), and the returned
filename or propagated error. -/
structure RunResult where
  console : List String
  file_writes : List (String × MapDoc)
  result : Except LoaderError String
  deriving Repr

/-- `create_wa_minimum_wage_map` (lines 68–135 of `p.py`) as a function of
the fetch behavior.  If `get_wa_counties` raises, the error propagates
unchanged with no further work; otherwise the wage join, map build and
the single `m.save(output_file)` write happen, the confirmation line is
printed and the filename returned. -/
def create_wa_minimum_wage_map (b : FetchBehavior) : RunResult :=
  match get_wa_counties b with
  | (log, .error e) => { console := log, file_writes := [], result := .error e }
  | (log, .ok records) =>
      let joined := join_wages records
      let doc := build_map joined
      { console := log ++ ["Interactive map has been saved as " ++ output_file]
        file_writes := [(output_file, doc)]
        result := .ok output_file }

/-! ### Helper lemmas and demonstration inputs -/

/-- The wage join never changes a record's resolved name. -/
theorem join_wage_NAME (e : EnrichedFeature) : (join_wage e).NAME = e.NAME := rfl

/-- Computation of the wage join on a record named `King`. -/
theorem join_wage_king (e : EnrichedFeature) (h : e.NAME = "King") :
    (join_wage e).min_wage_numeric = 30.09 ∧
    (join_wage e).min_wage_cad = "30.09 Canadian Dollars an hour" := by
  simp [join_wage, h, py_float_str]
  norm_num
  rfl

/-- Computation of the wage join on a record named `Whatcom`. -/
theorem join_wage_whatcom (e : EnrichedFeature) (h : e.NAME = "Whatcom") :
    (join_wage e).min_wage_numeric = 26.54 ∧
    (join_wage e).min_wage_cad = "26.54 Canadian Dollars an hour starting May 1st" := by
  simp [join_wage, h, py_float_str]
  norm_num
  rfl

/-- Computation of the wage join on a record named neither `King` nor
`Whatcom`. -/
theorem join_wage_other (e : EnrichedFeature) (hK : e.NAME ≠ "King")
    (hW : e.NAME ≠ "Whatcom") :
    (join_wage e).min_wage_numeric = 23.70 ∧
    (join_wage e).min_wage_cad = "23.7 Canadian Dollars an hour" := by
  simp [join_wage, hK, hW, py_float_str]

/-- Splitting a count: if `p` and `q` never hold together, the count of
`p`, the count of `q` and the count of the rest add up to the length. -/
theorem countP_partition {α : Type} (p q : α → Bool) (l : List α)
    (hpq : ∀ a, ¬(p a = true ∧ q a = true)) :
    l.countP p + l.countP q + l.countP (fun a => !p a && !q a) = l.length := by
  induction l with
  | nil => simp
  | cons a t ih =>
    by_cases hp : p a = true
    · by_cases hq : q a = true
      · exact absurd ⟨hp, hq⟩ (hpq a)
      · simp [List.countP_cons, hp, hq]
        omega
    · by_cases hq : q a = true
      · simp [List.countP_cons, hp, hq]
        omega
      · simp [List.countP_cons, hp, hq]
        omega

/-- `str()` of the default rate. -/
theorem py_float_str_default : py_float_str 23.70 = "23.7" := by
  norm_num [py_float_str]

/-- `str()` of the King override rate. -/
theorem py_float_str_king : py_float_str 30.09 = "30.09" := by
  norm_num [py_float_str]

/-- `str()` of the Whatcom override rate. -/
theorem py_float_str_whatcom : py_float_str 26.54 = "26.54" := by
  norm_num [py_float_str]

/-- A three-element sample of the national document: two Washington
features (King and Whatcom county codes) around an Oregon feature. -/
def demo_raw : List RawFeature :=
  [{ STATE := "53", COUNTY := "033", geometry := 0 },
   { STATE := "41", COUNTY := "001", geometry := 1 },
   { STATE := "53", COUNTY := "073", geometry := 2 }]

/-- A 39-record enriched dataset with every county name of the static
table, hence exactly one `King` and one `Whatcom` record. -/
def demo_enriched : List EnrichedFeature :=
  county_names.map (fun p =>
    { STATE := "53", COUNTY := "", geometry := 0,
      NAME := p.2, NAMELSAD := p.2 ++ " County" })

/-! ### Claims -/

/-- C1: style assignment is a pure, deterministic function of the
feature's `min_wage_numeric` alone; the match against 30.09 and 26.54 is
by exact numeric equality, and any other rate yields the default
descriptor with `fillColor` `#ffeeba`. -/
theorem C1_style_pure_exact_equality (f g : WageFeature) :
    (f.min_wage_numeric = g.min_wage_numeric → style_function f = style_function g) ∧
    (f.min_wage_numeric = 30.09 → (style_function f).fillColor = "#ffd700") ∧
    (f.min_wage_numeric = 26.54 → (style_function f).fillColor = "#f5c855") ∧
    (f.min_wage_numeric ≠ 30.09 → f.min_wage_numeric ≠ 26.54 →
      style_function f =
        { fillColor := "#ffeeba", color := "#000000", weight := 1, fillOpacity := 0.7 }) := by
  refine ⟨fun h => by simp [style_function, h], fun h => by simp [style_function, h],
    fun h => by simp [style_function, h]; norm_num, fun h1 h2 => by simp [style_function, h1, h2]⟩

/-- Witness for C1: a rate of 28.00, strictly between the two override
rates, still gets the default descriptor — the match is not by range. -/
theorem C1_witness :
    style_function
        { STATE := "53", COUNTY := "000", geometry := 0, NAME := "Nowhere",
          NAMELSAD := "Nowhere County", min_wage_numeric := 28.00,
          min_wage_cad := "x" } =
      { fillColor := "#ffeeba", color := "#000000", weight := 1, fillOpacity := 0.7 } :=
  (C1_style_pure_exact_equality
      { STATE := "53", COUNTY := "000", geometry := 0, NAME := "Nowhere",
        NAMELSAD := "Nowhere County", min_wage_numeric := 28.00, min_wage_cad := "x" }
      { STATE := "53", COUNTY := "000", geometry := 0, NAME := "Nowhere",
        NAMELSAD := "Nowhere County", min_wage_numeric := 28.00,
        min_wage_cad := "x" }).2.2.2 (by norm_num) (by norm_num)

/-- C4: a region code absent from the static name table resolves to the
sentinel: `NAME` is `Unknown` and `NAMELSAD` is `Unknown County`, and
enrichment is total (it returns a record rather than failing). -/
theorem C4_unmapped_code_sentinel (f : RawFeature)
    (h : county_names.lookup (f.STATE ++ f.COUNTY) = none) :
    (enrich f).NAME = "Unknown" ∧ (enrich f).NAMELSAD = "Unknown County" := by
  constructor <;> simp [enrich, lookup_name, h]

/-- Witness for C4: the code `99999` is not in the table, and enriching
it yields the sentinel names. -/
theorem C4_witness :
    (enrich { STATE := "99", COUNTY := "999", geometry := 7 }).NAME = "Unknown" ∧
    (enrich { STATE := "99", COUNTY := "999", geometry := 7 }).NAMELSAD = "Unknown County" :=
  C4_unmapped_code_sentinel { STATE := "99", COUNTY := "999", geometry := 7 } (by decide)

/-- C6: the loaded collection consists of exactly the features of the
fetched document whose `STATE` property equals `53`, in the original
order of the source document. -/
theorem C6_filter_exact_and_ordered (l : List RawFeature) :
    (filter_wa l).Sublist l ∧
    (∀ f, f ∈ filter_wa l ↔ f ∈ l ∧ f.STATE = "53") ∧
    (filter_wa l).length = l.countP (fun f => f.STATE == "53") := by
  refine ⟨List.filter_sublist l, fun f => ?_, ?_⟩
  · simp [filter_wa, List.mem_filter]
  · simp [filter_wa, List.countP_eq_length_filter]

/-- Witness for C6: on the three-feature sample, the King-county feature
is kept because its `STATE` is `53`. -/
theorem C6_witness :
    RawFeature.mk "53" "033" 0 ∈ filter_wa demo_raw :=
  ((C6_filter_exact_and_ordered demo_raw).2.1 (RawFeature.mk "53" "033" 0)).mpr
    ⟨by decide, by decide⟩

/-- C7: every record produced by filtering and enrichment has
`NAMELSAD` equal to `NAME` with the fixed ` County` suffix appended. -/
theorem C7_long_name_suffix (l : List RawFeature) :
    ∀ e ∈ process_features l, e.NAMELSAD = e.NAME ++ " County" := by
  intro e he
  simp only [process_features, List.mem_map] at he
  obtain ⟨f, _, rfl⟩ := he
  simp [enrich]

/-- Witness for C7: the enriched King-county record of the sample
satisfies the suffix relation. -/
theorem C7_witness : ("King County" : String) = "King" ++ " County" :=
  C7_long_name_suffix demo_raw
    { STATE := "53", COUNTY := "033", geometry := 0,
      NAME := "King", NAMELSAD := "King County" } (by decide)

/-- C10: a record whose full region code is absent from the name table
always receives the default rate 23.70 and default display text after
the wage join, because its resolved name is the sentinel `Unknown`,
which is not an override key. -/
theorem C10_unmapped_never_override (f : RawFeature)
    (h : county_names.lookup (f.STATE ++ f.COUNTY) = none) :
    (join_wage (enrich f)).min_wage_numeric = 23.70 ∧
    (join_wage (enrich f)).min_wage_cad = "23.7 Canadian Dollars an hour" := by
  have hn : (enrich f).NAME = "Unknown" := by simp [enrich, lookup_name, h]
  exact join_wage_other (enrich f) (by simp [hn]) (by simp [hn])

/-- Witness for C10: the unmapped code `99999` ends up with the default
rate and text. -/
theorem C10_witness :
    (join_wage (enrich { STATE := "99", COUNTY := "999", geometry := 7 })).min_wage_numeric = 23.70 ∧
    (join_wage (enrich { STATE := "99", COUNTY := "999", geometry := 7 })).min_wage_cad =
      "23.7 Canadian Dollars an hour" :=
  C10_unmapped_never_override { STATE := "99", COUNTY := "999", geometry := 7 } (by decide)

/-- A one-record enriched dataset used to instantiate the invariant. -/
def demo_one : List EnrichedFeature :=
  [{ STATE := "53", COUNTY := "001", geometry := 0,
     NAME := "Adams", NAMELSAD := "Adams County" }]

/-- C2: on a 39-record dataset with exactly one record named `King` and
exactly one named `Whatcom`, the wage join gives the King record 30.09
with no extra note, the Whatcom record 26.54 with the note appended, and
the other 37 records the default 23.70 with the default text; overrides
apply exactly on string equality of the resolved name. -/
theorem C2_boundary_dataset_scenario (l : List EnrichedFeature)
    (hlen : l.length = 39)
    (hking : l.countP (fun e => e.NAME == "King") = 1)
    (hwhat : l.countP (fun e => e.NAME == "Whatcom") = 1) :
    (∀ w ∈ join_wages l, w.NAME = "King" →
        w.min_wage_numeric = 30.09 ∧
        w.min_wage_cad = "30.09 Canadian Dollars an hour") ∧
    (∀ w ∈ join_wages l, w.NAME = "Whatcom" →
        w.min_wage_numeric = 26.54 ∧
        w.min_wage_cad = "26.54 Canadian Dollars an hour starting May 1st") ∧
    (join_wages l).countP
        (fun w => !(w.NAME == "King") && !(w.NAME == "Whatcom")) = 37 ∧
    (∀ w ∈ join_wages l, w.NAME ≠ "King" → w.NAME ≠ "Whatcom" →
        w.min_wage_numeric = 23.70 ∧
        w.min_wage_cad = "23.7 Canadian Dollars an hour") := by
  have hdisj : ∀ e : EnrichedFeature,
      ¬((e.NAME == "King") = true ∧ (e.NAME == "Whatcom") = true) := by
    intro e ⟨h1, h2⟩
    rw [beq_iff_eq] at h1 h2
    rw [h1] at h2
    exact absurd h2 (by decide)
  refine ⟨?_, ?_, ?_, ?_⟩
  · intro w hw hname
    simp only [join_wages, List.mem_map] at hw
    obtain ⟨e, _, rfl⟩ := hw
    exact join_wage_king e (join_wage_NAME e ▸ hname)
  · intro w hw hname
    simp only [join_wages, List.mem_map] at hw
    obtain ⟨e, _, rfl⟩ := hw
    exact join_wage_whatcom e (join_wage_NAME e ▸ hname)
  · have hmap : (join_wages l).countP
        (fun w => !(w.NAME == "King") && !(w.NAME == "Whatcom")) =
        l.countP (fun e => !(e.NAME == "King") && !(e.NAME == "Whatcom")) := by
      simp only [join_wages, List.countP_map]
      rfl
    have hpart : l.countP (fun e => e.NAME == "King") +
        l.countP (fun e => e.NAME == "Whatcom") +
        l.countP (fun e => !(e.NAME == "King") && !(e.NAME == "Whatcom")) =
        l.length :=
      countP_partition (fun e : EnrichedFeature => e.NAME == "King")
        (fun e => e.NAME == "Whatcom") l hdisj
    rw [hmap]
    omega
  · intro w hw hK hW
    simp only [join_wages, List.mem_map] at hw
    obtain ⟨e, _, rfl⟩ := hw
    exact join_wage_other e (fun h => hK (join_wage_NAME e ▸ h))
      (fun h => hW (join_wage_NAME e ▸ h))

/-- Witness for C2: the 39-county dataset built from the static name
table has exactly one King and one Whatcom record, and after the join 37
records carry neither override. -/
theorem C2_witness :
    (join_wages demo_enriched).countP
        (fun w => !(w.NAME == "King") && !(w.NAME == "Whatcom")) = 37 :=
  (C2_boundary_dataset_scenario demo_enriched (by decide) (by decide)
      (by decide)).2.2.1

/-- C3: a non-200 response makes the loader fail with the fetch-failure
error carrying the response status, after printing the status line; any
other exception during fetch or parse is logged on the console and
re-raised as the load error carrying the underlying cause. -/
theorem C3_loader_error_kinds :
    (∀ (status : Nat) (parse : Except String (List RawFeature)), status ≠ 200 →
        get_wa_counties (.response status parse) =
          (["API request failed with status code: " ++ toString status,
            "Error getting county data: Failed to fetch county data from API"],
           .error (.FetchError status))) ∧
    (∀ msg, get_wa_counties (.exn msg) =
        (["Error getting county data: " ++ msg], .error (.LoadError msg))) ∧
    (∀ msg, get_wa_counties (.response 200 (.error msg)) =
        (["Error getting county data: " ++ msg], .error (.LoadError msg))) := by
  refine ⟨fun status parse h => ?_, fun msg => rfl, fun msg => rfl⟩
  simp [get_wa_counties, beq_iff_eq, h]

/-- Witness for C3: a 404 response produces the fetch error carrying 404
and the console line naming the status. -/
theorem C3_witness :
    get_wa_counties (.response 404 (Except.ok [])) =
      (["API request failed with status code: 404",
        "Error getting county data: Failed to fetch county data from API"],
       .error (.FetchError 404)) :=
  C3_loader_error_kinds.1 404 (Except.ok []) (by decide)

/-- C5: on a non-200 status the run aborts before any enrichment, join
or file write: no file is written, and the loader's error is returned by
the renderer unchanged, with no additional console output beyond the
loader's own. -/
theorem C5_nonsuccess_aborts_run (status : Nat)
    (parse : Except String (List RawFeature)) (h : status ≠ 200) :
    (create_wa_minimum_wage_map (.response status parse)).file_writes = [] ∧
    (create_wa_minimum_wage_map (.response status parse)).result =
      Except.error (.FetchError status) ∧
    (∀ e, (get_wa_counties (.response status parse)).2 = Except.error e →
      (create_wa_minimum_wage_map (.response status parse)).result =
        Except.error e) ∧
    (create_wa_minimum_wage_map (.response status parse)).console =
      (get_wa_counties (.response status parse)).1 := by
  have hg : get_wa_counties (.response status parse) =
      (["API request failed with status code: " ++ toString status,
        "Error getting county data: Failed to fetch county data from API"],
       .error (.FetchError status)) := by
    simp [get_wa_counties, beq_iff_eq, h]
  refine ⟨?_, ?_, ?_, ?_⟩
  · simp [create_wa_minimum_wage_map, hg]
  · simp [create_wa_minimum_wage_map, hg]
  · intro e he
    rw [hg] at he
    simp at he
    simp [create_wa_minimum_wage_map, hg, he]
  · simp [create_wa_minimum_wage_map, hg]

/-- Witness for C5: a 500 response yields no file write and the fetch
error for status 500. -/
theorem C5_witness :
    (create_wa_minimum_wage_map (.response 500 (Except.ok []))).file_writes = [] ∧
    (create_wa_minimum_wage_map (.response 500 (Except.ok []))).result =
      Except.error (.FetchError 500) :=
  ⟨(C5_nonsuccess_aborts_run 500 (Except.ok []) (by decide)).1,
   (C5_nonsuccess_aborts_run 500 (Except.ok []) (by decide)).2.1⟩

/-- C8: every record of the final dataset carries exactly one of the
three rates (23.70 default, 30.09 King, 26.54 Whatcom), its display
string is determined by that rate (with the note appended exactly on the
Whatcom name), and records named neither override key get the default
rate and text. -/
theorem C8_final_dataset_invariant (l : List EnrichedFeature) :
    ∀ w ∈ join_wages l,
      ((w.min_wage_numeric = 23.70 ∧ ¬w.min_wage_numeric = 30.09 ∧
          ¬w.min_wage_numeric = 26.54) ∨
       (¬w.min_wage_numeric = 23.70 ∧ w.min_wage_numeric = 30.09 ∧
          ¬w.min_wage_numeric = 26.54) ∨
       (¬w.min_wage_numeric = 23.70 ∧ ¬w.min_wage_numeric = 30.09 ∧
          w.min_wage_numeric = 26.54)) ∧
      w.min_wage_cad = py_float_str w.min_wage_numeric ++ " Canadian Dollars an hour" ++
        (if w.NAME = "Whatcom" then " starting May 1st" else "") ∧
      (w.NAME ≠ "King" → w.NAME ≠ "Whatcom" →
        w.min_wage_numeric = 23.70 ∧
        w.min_wage_cad = "23.7 Canadian Dollars an hour") := by
  intro w hw
  simp only [join_wages, List.mem_map] at hw
  obtain ⟨e, _, rfl⟩ := hw
  have hNAME : (join_wage e).NAME = e.NAME := join_wage_NAME e
  by_cases hK : e.NAME = "King"
  · obtain ⟨h1, h2⟩ := join_wage_king e hK
    refine ⟨Or.inr (Or.inl ⟨by rw [h1]; norm_num, h1, by rw [h1]; norm_num⟩), ?_, ?_⟩
    · rw [h2, h1, hNAME, hK, py_float_str_king]
      rfl
    · intro hk _
      exact absurd (hNAME.trans hK) hk
  · by_cases hW : e.NAME = "Whatcom"
    · obtain ⟨h1, h2⟩ := join_wage_whatcom e hW
      refine ⟨Or.inr (Or.inr ⟨by rw [h1]; norm_num, by rw [h1]; norm_num, h1⟩), ?_, ?_⟩
      · rw [h2, h1, hNAME, hW, py_float_str_whatcom]
        rfl
      · intro _ hw'
        exact absurd (hNAME.trans hW) hw'
    · obtain ⟨h1, h2⟩ := join_wage_other e hK hW
      refine ⟨Or.inl ⟨h1, by rw [h1]; norm_num, by rw [h1]; norm_num⟩, ?_, ?_⟩
      · rw [h2, h1, hNAME, if_neg hW, py_float_str_default]
        rfl
      · intro _ _
        exact ⟨h1, h2⟩

/-- Witness for C8: the single Adams record receives the default rate
and default display text. -/
theorem C8_witness :
    (join_wage
        { STATE := "53", COUNTY := "001", geometry := 0,
          NAME := "Adams", NAMELSAD := "Adams County" }).min_wage_numeric = 23.70 ∧
    (join_wage
        { STATE := "53", COUNTY := "001", geometry := 0,
          NAME := "Adams", NAMELSAD := "Adams County" }).min_wage_cad =
      "23.7 Canadian Dollars an hour" :=
  (C8_final_dataset_invariant demo_one
      (join_wage
        { STATE := "53", COUNTY := "001", geometry := 0,
          NAME := "Adams", NAMELSAD := "Adams County" })
      (by simp [join_wages, demo_one])).2.2 (by decide) (by decide)

end WAWages
